import Mathlib

/-
Verification of the configuration loading, validation, and normalization layer
of the job-posting data-quality pipeline.

Shallow embedding of:
  - src/functions/utils/config.py   (loaders, pydantic models, field validators)
  - src/functions/llm/prompts.py    (_sanitize_prompt_text, load_prompt_templates)

Strings are modelled as Lean `String` (lists of Unicode characters); the
Python helpers `str.strip`, `str.lower` and `int(str)` are modelled on the
ASCII subset actually used by configuration documents.  YAML parse trees are
modelled by the inductive `Yaml`; the external PyYAML parser is not embedded,
so the loader entry points are functions of the parsed tree.  Mapping keys are
modelled as strings (configuration documents use string keys).  Python floats
are modelled as rationals; no claim exercises float rounding.
-/

set_option maxRecDepth 8000

namespace JobPostingDQ

/-! ## Text sanitization (prompts.py `_BAD_WHITESPACE`, `_sanitize_prompt_text`;
config.py `_load_yaml` character-replacement loop) -/

/-- The four code points replaced by the sanitizers: NO-BREAK SPACE, FIGURE
SPACE, NARROW NO-BREAK SPACE, BOM (`_BAD_WHITESPACE` in prompts.py and the
literal list in `_load_yaml`). -/
def badWhitespaceChars : List Char := ['\u00A0', '\u2007', '\u202F', '\uFEFF']

/-- Membership in the four-codepoint set, as a Boolean test. -/
def isBadWhitespace (c : Char) : Bool :=
  c == '\u00A0' || c == '\u2007' || c == '\u202F' || c == '\uFEFF'

/-- Python `text.replace(ch, " ")` for a one-character pattern: every
occurrence of `ch` becomes a space. -/
def replaceCharWithSpace (l : List Char) (ch : Char) : List Char :=
  l.map (fun a => if a == ch then ' ' else a)

/-- The loop `for ch in BAD: text = text.replace(ch, " ")` shared by
`_load_yaml` (config.py) and `_sanitize_prompt_text` (prompts.py). -/
def replaceBadWhitespace (l : List Char) : List Char :=
  badWhitespaceChars.foldl replaceCharWithSpace l

/-- Pointwise form of the replacement loop (proved equal to it below). -/
def badToSpace (c : Char) : Char := if isBadWhitespace c then ' ' else c

/-- Python `text.replace("\r\n", "\n")`: one left-to-right, non-overlapping
scan replacing each CRLF pair by LF. -/
def replaceCRLF : List Char → List Char
  | [] => []
  | [c] => [c]
  | c1 :: c2 :: rest =>
    if c1 == '\r' && c2 == '\n' then '\n' :: replaceCRLF rest
    else c1 :: replaceCRLF (c2 :: rest)

/-- Does the character list contain an adjacent CR LF pair? -/
def hasCRLF : List Char → Bool
  | [] => false
  | [_] => false
  | c1 :: c2 :: rest => (c1 == '\r' && c2 == '\n') || hasCRLF (c2 :: rest)

/-- Boolean: the list contains none of the four marked code points. -/
def cleanOfBadWhitespace (l : List Char) : Bool :=
  l.all (fun c => !(isBadWhitespace c))

/-- `_sanitize_prompt_text` (prompts.py): replace the four code points with
spaces, then normalize CRLF to LF.  (The Python function passes non-string
arguments through unchanged; the embedding is typed at `String`.) -/
def sanitize_prompt_text (s : String) : String :=
  String.mk (replaceCRLF (replaceBadWhitespace s.data))

/-- The file-level sanitization inside `_load_yaml` (config.py): only the
four-codepoint replacement is applied to the raw file text before parsing;
there is no CRLF normalization at this level. -/
def fileSanitize (s : String) : String :=
  String.mk (replaceBadWhitespace s.data)

/-! ## Python string/number helpers -/

/-- ASCII whitespace stripped by Python `str.strip()` (CPython also strips
some further Unicode whitespace; configuration values are ASCII). -/
def isPySpace (c : Char) : Bool :=
  c == ' ' || c == '\t' || c == '\n' || c == '\r' || c == '\x0b' || c == '\x0c'

/-- Python `str.strip()` on the ASCII whitespace set. -/
def pyStrip (s : String) : String :=
  String.mk (((s.data.dropWhile isPySpace).reverse.dropWhile isPySpace).reverse)

/-- Python `str.lower()` (ASCII case folding; configuration tokens are ASCII). -/
def pyLower (s : String) : String :=
  String.mk (s.data.map Char.toLower)

/-- Numeric value of an ASCII digit. -/
def digitVal (c : Char) : Nat := c.toNat - 48

/-- Remaining digits of a Python integer literal: decimal digits, where a
single underscore may separate two digits (as accepted by CPython `int`). -/
def parseDigitsTail : Nat → List Char → Option Nat
  | acc, [] => some acc
  | acc, '_' :: c :: rest =>
    if c.isDigit then parseDigitsTail (10 * acc + digitVal c) rest else none
  | acc, c :: rest =>
    if c.isDigit then parseDigitsTail (10 * acc + digitVal c) rest else none

/-- A nonempty run of digits (with optional single underscores between them). -/
def parseUnsigned : List Char → Option Nat
  | c :: rest => if c.isDigit then parseDigitsTail (digitVal c) rest else none
  | [] => none

/-- Python `int(s)` on strings: strip whitespace, optional sign, ASCII decimal
digits (CPython additionally accepts non-ASCII decimal digits; configuration
documents use ASCII). `none` models the `ValueError` raised by `int`. -/
def pyIntOfString (s : String) : Option Int :=
  match (pyStrip s).data with
  | '+' :: rest => (parseUnsigned rest).map (fun n => (n : Int))
  | '-' :: rest => (parseUnsigned rest).map (fun n => -(n : Int))
  | l => (parseUnsigned l).map (fun n => (n : Int))

/-! ## YAML parse trees and root handling (config.py `_load_yaml`) -/

/-- A parsed YAML document (output of `yaml.safe_load`).  Mapping keys are
modelled as strings: configuration documents use string keys only.  Floats are
modelled as rationals (no claim exercises float rounding).  A Python `bool` is
a separate constructor; where the source does `isinstance(v, int)` (which is
true for Python bools) the embedding treats `bool` like the corresponding
0/1 integer. -/
inductive Yaml where
  | null
  | bool (b : Bool)
  | int (n : Int)
  | float (q : Rat)
  | str (s : String)
  | list (items : List Yaml)
  | map (entries : List (String × Yaml))

/-- Python truthiness of a parsed YAML value (used by `data = ... or {}`). -/
def Yaml.truthy : Yaml → Bool
  | .null => false
  | .bool b => b
  | .int n => n != 0
  | .float q => q != 0
  | .str s => s != ""
  | .list items => !items.isEmpty
  | .map entries => !entries.isEmpty

/-- Is the value a mapping? -/
def isYamlMap : Yaml → Bool
  | .map _ => true
  | _ => false

/-- Is the value a string? -/
def isStrVal : Yaml → Bool
  | .str _ => true
  | _ => false

/-- Lookup of a key in a mapping's entry list (Python `dict` access; parsed
dictionaries have unique keys, lookup takes the first match). -/
def getKey : List (String × Yaml) → String → Option Yaml
  | [], _ => none
  | kv :: rest, k => if kv.1 == k then some kv.2 else getKey rest k

/-- The entry list of a mapping (empty for non-mappings). -/
def entriesOf : Yaml → List (String × Yaml)
  | .map entries => entries
  | _ => []

/-- Python `raw.get(k)`: `None` both when the key is absent and when the
stored value is YAML null (YAML null parses to Python `None`). -/
def rawGet (entries : List (String × Yaml)) (k : String) : Yaml :=
  match getKey entries k with
  | some v => v
  | none => Yaml.null

/-- Errors raised by the loaders: `schemaErr` models a plain `ValueError`
with the given message; `fieldErrs` models a pydantic `ValidationError`
carrying one entry per invalid field (field path, reason). -/
inductive LoadErr where
  | schemaErr (msg : String)
  | fieldErrs (errs : List (String × String))

/-- Post-parse part of `_load_yaml` (config.py): `data = yaml.safe_load(text)
or {}` (Python truthiness!) followed by the mapping-root check.  The file
read and the parse itself are external; the argument is the parsed tree. -/
def load_yaml_root (parsed : Yaml) : Except LoadErr (List (String × Yaml)) :=
  let data := if parsed.truthy then parsed else Yaml.map []
  match data with
  | .map entries => .ok entries
  | _ => .error (.schemaErr "YAML root must be a mapping/object")

/-! ## Typed configuration objects (the pydantic models of config.py) -/

structure ProjectConfig where
  name : String := "job_posting_dq"
  timezone : String := "Asia/Bangkok"

structure InputsConfig where
  raw_postings_csv : String := "raw_data/Thailand_global_postings.csv"
  raw_jds_csv : String := "raw_data/Thailand_global_raw.csv"
  raw_skills_csv : String := "raw_data/Thailand_global_skills.csv"
  processed_postings_psv : String := "process_data/Thailand_global_postings.psv"
  processed_raw_psv : String := "process_data/Thailand_global_raw.psv"
  processed_skills_psv : String := "process_data/Thailand_global_skills.psv"

structure LLMConfig where
  model_name : String := "gemini-2.5-flash"
  temperature : Rat := 3/10
  progress_log_every : Int := 100
  max_workers : Int := 4
  silence_client_lv_logs : Bool := false
  json_only : Bool := true
  max_retries : Int := 3
  max_rows_per_run : Option Int := none
  force : Bool := false

structure OutputsConfig where
  artifacts_dir : String := "artifacts"
  cache_dir : String := "artifacts/cache"
  reports_dir : String := "artifacts/reports"
  job_postings_dq_eval_jsonl : String := "artifacts/job_postings_dq_eval.jsonl"
  job_postings_dq_eval_csv : String := "artifacts/job_postings_dq_eval.csv"

structure ParametersConfig where
  project : ProjectConfig := {}
  inputs : InputsConfig := {}
  llm : LLMConfig := {}
  outputs : OutputsConfig := {}
  prompt_key : String := "job_posting_dq_eval_v1"

structure CredentialsGeminiRequest where
  timeout_seconds : Int := 60
  retry_backoff_seconds : Int := 2
  max_retry_backoff_seconds : Int := 20

structure CredentialsGemini where
  api_key_env : String := "GEMINI_API_KEY"
  gcp_project_id : Option String := none
  gcp_location : Option String := none
  request : CredentialsGeminiRequest := {}

structure CredentialsConfig where
  gemini : CredentialsGemini := {}

/-- The all-defaults ParametersConfig. -/
def defaultParameters : ParametersConfig := {}

/-- The all-defaults CredentialsConfig. -/
def defaultCredentials : CredentialsConfig := {}

/-! ## Field coercion (pydantic lax mode, modelled on YAML scalars) and the
explicit field validators of config.py -/

/-- Python `int(v)` on a YAML scalar: ints, bools (0/1), floats (truncation
toward zero), strings via `int(str)`; anything else raises. -/
def pyIntCoerce : Yaml → Option Int
  | .int n => some n
  | .bool b => some (if b then 1 else 0)
  | .float q => some (q.num.tdiv (q.den : Int))
  | .str s => pyIntOfString s
  | _ => none

/-- pydantic lax coercion to `str`: only strings are accepted. -/
def coerceStr : Yaml → Except String String
  | .str s => .ok s
  | _ => .error "Input should be a valid string"

/-- pydantic lax coercion to `int`: ints, integral floats, integer strings;
bool and null are rejected. -/
def coerceInt : Yaml → Except String Int
  | .int n => .ok n
  | .float q => if q.den = 1 then .ok q.num else .error "Input should be a valid integer"
  | .str s =>
    match pyIntOfString s with
    | some n => .ok n
    | none => .error "Input should be a valid integer"
  | _ => .error "Input should be a valid integer"

/-- pydantic lax coercion to `bool` (string/int spellings of booleans are not
modelled; no claim exercises them). -/
def coerceBool : Yaml → Except String Bool
  | .bool b => .ok b
  | _ => .error "Input should be a valid boolean"

/-- pydantic lax coercion to `float`, on the rational model (integer-valued
strings accepted; decimal strings not modelled, no claim exercises them). -/
def coerceFloat : Yaml → Except String Rat
  | .float q => .ok q
  | .int n => .ok (n : Rat)
  | .str s =>
    match pyIntOfString s with
    | some n => .ok (n : Rat)
    | none => .error "Input should be a valid number"
  | _ => .error "Input should be a valid number"

/-- pydantic lax coercion to `Optional[str]`. -/
def coerceOptStr : Yaml → Except String (Option String)
  | .null => .ok none
  | .str s => .ok (some s)
  | _ => .error "Input should be a valid string"

/-- A field with a declared default: absent means the default is used without
running coercion or validators (pydantic does not validate defaults here). -/
def withDefault (d : α) (f : Yaml → Except String α) : Option Yaml → Except String α
  | none => .ok d
  | some v => f v

/-- `_validate_temperature` (config.py): after-validator on the coerced float. -/
def validate_temperature (v : Rat) : Except String Rat :=
  if v < 0 ∨ v > 2 then .error "llm.temperature must be within [0.0, 2.0]" else .ok v

/-- `_validate_positive_int` (config.py): shared after-validator for
`max_workers` and `max_retries`; the message names `llm.{field_name}`. -/
def validate_positive_int (fieldName : String) (v : Int) : Except String Int :=
  if v ≤ 0 then .error ("llm." ++ fieldName ++ " must be > 0") else .ok v

/-- `_validate_progress_log_every` (config.py, `mode="before"`); `none` means
the field is absent, in which case pydantic applies the declared default 100
without running the validator (the validator maps an explicit null to the
same 100). -/
def validate_progress_log_every : Option Yaml → Except String Int
  | none => .ok 100
  | some .null => .ok 100
  | some v =>
    match pyIntCoerce v with
    | none => .error "llm.progress_log_every must be an integer"
    | some iv => if iv ≤ 0 then .error "llm.progress_log_every must be > 0" else .ok iv

/-- `_validate_max_rows_per_run` (config.py, `mode="before"`).  Python bools
satisfy `isinstance(v, int)` and take the integer branch; the source returns
the bool itself there (pydantic would then reject `True` for `Optional[int]`);
the embedding returns its 0/1 value — no claim supplies a boolean. -/
def validate_max_rows_per_run : Yaml → Except String (Option Int)
  | .null => .ok none
  | .str v =>
    let s := pyLower (pyStrip v)
    if s = "all" then .ok none
    else
      match pyIntOfString s with
      | none => .error "llm.max_rows_per_run must be \"all\", null, or an integer"
      | some iv => .ok (if iv ≤ 0 then none else some iv)
  | .int n => .ok (if n ≤ 0 then none else some n)
  | .bool b => .ok (if (if b then (1 : Int) else 0) ≤ 0 then none else some (if b then 1 else 0))
  | _ => .error "llm.max_rows_per_run must be \"all\", null, or an integer"

/-- The `max_rows_per_run` field pipeline: absent keeps the default `None`;
a provided value (including explicit null) passes through the before-validator. -/
def validateLLM_max_rows : Option Yaml → Except String (Option Int)
  | none => .ok none
  | some v => validate_max_rows_per_run v

/-! ## Error-aggregating validation engine (pydantic `model_validate` collects
one entry per invalid field into a single `ValidationError`) -/

/-- One (field path, reason) entry per invalid field. -/
abbrev FieldErrs := List (String × String)

/-- Attach a field path to a single-field result. -/
def fieldE (path : String) : Except String α → Except FieldErrs α
  | .ok a => .ok a
  | .error m => .error [(path, m)]

/-- Applicative composition that accumulates the errors of both operands,
modelling how pydantic validates every field and reports all failures. -/
def vseq : Except FieldErrs (α → β) → Except FieldErrs α → Except FieldErrs β
  | .ok g, .ok a => .ok (g a)
  | .error es, .ok _ => .error es
  | .ok _, .error es => .error es
  | .error es, .error es2 => .error (es ++ es2)

/-- The error list of a result (empty on success). -/
def errsList : Except FieldErrs α → FieldErrs
  | .ok _ => []
  | .error es => es

/-- A sub-model field: absent yields the `default_factory` object; a mapping
is validated field by field; anything else is one error at the field path. -/
def subModel (path : String) (d : α) (f : List (String × Yaml) → Except FieldErrs α) :
    Option Yaml → Except FieldErrs α
  | none => .ok d
  | some (.map entries) => f entries
  | some _ => .error [(path, "Input should be a valid dictionary")]

/-! ## Per-field pipelines of LLMConfig (coercion then explicit validator) -/

def llmField_model_name (o : Option Yaml) : Except String String :=
  withDefault "gemini-2.5-flash" coerceStr o

def llmField_temperature (o : Option Yaml) : Except String Rat :=
  withDefault (3/10)
    (fun v =>
      match coerceFloat v with
      | .ok q => validate_temperature q
      | .error m => .error m) o

def llmField_max_workers (o : Option Yaml) : Except String Int :=
  withDefault 4
    (fun v =>
      match coerceInt v with
      | .ok n => validate_positive_int "max_workers" n
      | .error m => .error m) o

def llmField_max_retries (o : Option Yaml) : Except String Int :=
  withDefault 3
    (fun v =>
      match coerceInt v with
      | .ok n => validate_positive_int "max_retries" n
      | .error m => .error m) o

def llmField_silence (o : Option Yaml) : Except String Bool :=
  withDefault false coerceBool o

def llmField_json_only (o : Option Yaml) : Except String Bool :=
  withDefault true coerceBool o

def llmField_force (o : Option Yaml) : Except String Bool :=
  withDefault false coerceBool o

/-- Field-by-field validation of the `llm` section (LLMConfig). -/
def validateLLMFields (entries : List (String × Yaml)) : Except FieldErrs LLMConfig :=
  vseq (vseq (vseq (vseq (vseq (vseq (vseq (vseq (vseq (.ok LLMConfig.mk)
    (fieldE "llm.model_name" (llmField_model_name (getKey entries "model_name"))))
    (fieldE "llm.temperature" (llmField_temperature (getKey entries "temperature"))))
    (fieldE "llm.progress_log_every"
      (validate_progress_log_every (getKey entries "progress_log_every"))))
    (fieldE "llm.max_workers" (llmField_max_workers (getKey entries "max_workers"))))
    (fieldE "llm.silence_client_lv_logs"
      (llmField_silence (getKey entries "silence_client_lv_logs"))))
    (fieldE "llm.json_only" (llmField_json_only (getKey entries "json_only"))))
    (fieldE "llm.max_retries" (llmField_max_retries (getKey entries "max_retries"))))
    (fieldE "llm.max_rows_per_run"
      (validateLLM_max_rows (getKey entries "max_rows_per_run"))))
    (fieldE "llm.force" (llmField_force (getKey entries "force")))

/-- Field-by-field validation of the `project` section. -/
def validateProjectFields (entries : List (String × Yaml)) : Except FieldErrs ProjectConfig :=
  vseq (vseq (.ok ProjectConfig.mk)
    (fieldE "project.name" (withDefault "job_posting_dq" coerceStr (getKey entries "name"))))
    (fieldE "project.timezone" (withDefault "Asia/Bangkok" coerceStr (getKey entries "timezone")))

/-- Field-by-field validation of the `inputs` section. -/
def validateInputsFields (entries : List (String × Yaml)) : Except FieldErrs InputsConfig :=
  vseq (vseq (vseq (vseq (vseq (vseq (.ok InputsConfig.mk)
    (fieldE "inputs.raw_postings_csv"
      (withDefault "raw_data/Thailand_global_postings.csv" coerceStr
        (getKey entries "raw_postings_csv"))))
    (fieldE "inputs.raw_jds_csv"
      (withDefault "raw_data/Thailand_global_raw.csv" coerceStr
        (getKey entries "raw_jds_csv"))))
    (fieldE "inputs.raw_skills_csv"
      (withDefault "raw_data/Thailand_global_skills.csv" coerceStr
        (getKey entries "raw_skills_csv"))))
    (fieldE "inputs.processed_postings_psv"
      (withDefault "process_data/Thailand_global_postings.psv" coerceStr
        (getKey entries "processed_postings_psv"))))
    (fieldE "inputs.processed_raw_psv"
      (withDefault "process_data/Thailand_global_raw.psv" coerceStr
        (getKey entries "processed_raw_psv"))))
    (fieldE "inputs.processed_skills_psv"
      (withDefault "process_data/Thailand_global_skills.psv" coerceStr
        (getKey entries "processed_skills_psv")))

/-- Field-by-field validation of the `outputs` section. -/
def validateOutputsFields (entries : List (String × Yaml)) : Except FieldErrs OutputsConfig :=
  vseq (vseq (vseq (vseq (vseq (.ok OutputsConfig.mk)
    (fieldE "outputs.artifacts_dir"
      (withDefault "artifacts" coerceStr (getKey entries "artifacts_dir"))))
    (fieldE "outputs.cache_dir"
      (withDefault "artifacts/cache" coerceStr (getKey entries "cache_dir"))))
    (fieldE "outputs.reports_dir"
      (withDefault "artifacts/reports" coerceStr (getKey entries "reports_dir"))))
    (fieldE "outputs.job_postings_dq_eval_jsonl"
      (withDefault "artifacts/job_postings_dq_eval.jsonl" coerceStr
        (getKey entries "job_postings_dq_eval_jsonl"))))
    (fieldE "outputs.job_postings_dq_eval_csv"
      (withDefault "artifacts/job_postings_dq_eval.csv" coerceStr
        (getKey entries "job_postings_dq_eval_csv")))

/-- `_backward_compat_keys` (config.py, model_validator `mode="before"`):
non-dicts pass through; if `inputs` is absent and `input` maps to a mapping,
`data["inputs"] = data.pop("input")` removes `input` and appends `inputs`. -/
def backward_compat_keys : Yaml → Yaml
  | .map entries =>
    match getKey entries "inputs", getKey entries "input" with
    | none, some (.map inner) =>
      .map (entries.filter (fun kv => kv.1 != "input") ++ [("inputs", Yaml.map inner)])
    | _, _ => .map entries
  | d => d

/-- Top-level field validation of ParametersConfig. -/
def validateParametersFields (entries : List (String × Yaml)) :
    Except FieldErrs ParametersConfig :=
  vseq (vseq (vseq (vseq (vseq (.ok ParametersConfig.mk)
    (subModel "project" ({} : ProjectConfig) validateProjectFields (getKey entries "project")))
    (subModel "inputs" ({} : InputsConfig) validateInputsFields (getKey entries "inputs")))
    (subModel "llm" ({} : LLMConfig) validateLLMFields (getKey entries "llm")))
    (subModel "outputs" ({} : OutputsConfig) validateOutputsFields (getKey entries "outputs")))
    (fieldE "prompt_key" (withDefault "job_posting_dq_eval_v1" coerceStr
      (getKey entries "prompt_key")))

/-- `ParametersConfig.model_validate`: the before-model-validator
(`_backward_compat_keys`) runs first, then field validation; a non-mapping
input is a single error. -/
def parameters_model_validate (data : Yaml) : Except FieldErrs ParametersConfig :=
  match backward_compat_keys data with
  | .map entries => validateParametersFields entries
  | _ => .error [("", "Input should be a valid dictionary")]

/-- Field-by-field validation of `gemini.request` (CredentialsGeminiRequest). -/
def validateRequestFields (entries : List (String × Yaml)) :
    Except FieldErrs CredentialsGeminiRequest :=
  vseq (vseq (vseq (.ok CredentialsGeminiRequest.mk)
    (fieldE "gemini.request.timeout_seconds"
      (withDefault 60 coerceInt (getKey entries "timeout_seconds"))))
    (fieldE "gemini.request.retry_backoff_seconds"
      (withDefault 2 coerceInt (getKey entries "retry_backoff_seconds"))))
    (fieldE "gemini.request.max_retry_backoff_seconds"
      (withDefault 20 coerceInt (getKey entries "max_retry_backoff_seconds")))

/-- Field-by-field validation of the `gemini` section (CredentialsGemini). -/
def validateGeminiFields (entries : List (String × Yaml)) :
    Except FieldErrs CredentialsGemini :=
  vseq (vseq (vseq (vseq (.ok CredentialsGemini.mk)
    (fieldE "gemini.api_key_env"
      (withDefault "GEMINI_API_KEY" coerceStr (getKey entries "api_key_env"))))
    (fieldE "gemini.gcp_project_id"
      (withDefault none coerceOptStr (getKey entries "gcp_project_id"))))
    (fieldE "gemini.gcp_location"
      (withDefault none coerceOptStr (getKey entries "gcp_location"))))
    (subModel "gemini.request" ({} : CredentialsGeminiRequest) validateRequestFields
      (getKey entries "request"))

/-- `CredentialsConfig.model_validate`. -/
def credentials_model_validate (data : Yaml) : Except FieldErrs CredentialsConfig :=
  match data with
  | .map entries =>
    vseq (.ok CredentialsConfig.mk)
      (subModel "gemini" ({} : CredentialsGemini) validateGeminiFields (getKey entries "gemini"))
  | _ => .error [("", "Input should be a valid dictionary")]

/-! ## Loader entry points (config.py, prompts.py).  Each takes the parsed
YAML tree of the (sanitized) file text; file reading and parsing are external. -/

/-- `load_parameters` (config.py). -/
def load_parameters (parsed : Yaml) : Except LoadErr ParametersConfig :=
  match load_yaml_root parsed with
  | .error e => .error e
  | .ok entries =>
    match parameters_model_validate (Yaml.map entries) with
    | .ok c => .ok c
    | .error errs => .error (.fieldErrs errs)

/-- `load_credentials` (config.py). -/
def load_credentials (parsed : Yaml) : Except LoadErr CredentialsConfig :=
  match load_yaml_root parsed with
  | .error e => .error e
  | .ok entries =>
    match credentials_model_validate (Yaml.map entries) with
    | .ok c => .ok c
    | .error errs => .error (.fieldErrs errs)

/-- The final check of `load_prompt` (config.py): the selected value must be
a string that is non-blank after `strip()` (the source message interpolates
the path; the embedding keeps the fixed part). -/
def promptCheck (v : Yaml) : Except LoadErr String :=
  match v with
  | .str s =>
    if pyStrip s = "" then
      .error (.schemaErr "must contain a non-empty 'System Prompt' string")
    else .ok s
  | _ => .error (.schemaErr "must contain a non-empty 'System Prompt' string")

/-- `load_prompt` (config.py): prefer key "System Prompt"; fall back to
"system_prompt" only when the former is absent or null. -/
def load_prompt (parsed : Yaml) : Except LoadErr String :=
  match load_yaml_root parsed with
  | .error e => .error e
  | .ok entries =>
    match rawGet entries "System Prompt" with
    | .null => promptCheck (rawGet entries "system_prompt")
    | v => promptCheck v

/-- The entry loop of `load_prompts` (config.py): left to right, the first
entry whose value is not a string raises, naming the key (the source message
also interpolates the runtime types; the embedding keeps the fixed part and
the key).  Keys are strings by construction of the `Yaml` model. -/
def promptPairs : List (String × Yaml) → Except String (List (String × String))
  | [] => .ok []
  | (k, Yaml.str v) :: rest =>
    match promptPairs rest with
    | .ok out => .ok ((k, v) :: out)
    | .error e => .error e
  | (k, _) :: _ => .error ("prompts.yaml prompts must be string->string for key=" ++ k)

/-- `load_prompts` (config.py): requires top-level mappings `meta` and
`prompts`, then string-to-string entries under `prompts`.  No per-value
sanitization happens here. -/
def load_prompts (parsed : Yaml) : Except LoadErr (List (String × String)) :=
  match load_yaml_root parsed with
  | .error e => .error e
  | .ok entries =>
    match rawGet entries "meta" with
    | .map _ =>
      match rawGet entries "prompts" with
      | .map prompts =>
        match promptPairs prompts with
        | .ok out => .ok out
        | .error m => .error (.schemaErr m)
      | _ => .error (.schemaErr "prompts.yaml missing required 'prompts' mapping")
    | _ => .error (.schemaErr "prompts.yaml missing required 'meta' mapping")

/-- `load_prompt_templates` (prompts.py): `load_prompts`, then
`_sanitize_prompt_text` applied to every template value. -/
def load_prompt_templates (parsed : Yaml) : Except LoadErr (List (String × String)) :=
  match load_prompts parsed with
  | .ok prompts => .ok (prompts.map (fun kv => (kv.1, sanitize_prompt_text kv.2)))
  | .error e => .error e

/-! ## Helper lemmas: the sanitizers -/

/-- Induction principle matching the two-character lookahead of
`replaceCRLF`/`hasCRLF`. -/
theorem twoStepList {P : List Char → Prop} (h0 : P []) (h1 : ∀ c, P [c])
    (h2 : ∀ c1 c2 rest, P rest → P (c2 :: rest) → P (c1 :: c2 :: rest)) :
    ∀ l, P l := by
  have key : ∀ l, P l ∧ ∀ c, P (c :: l) := by
    intro l
    induction l with
    | nil => exact ⟨h0, h1⟩
    | cons c2 rest ih => exact ⟨ih.2 c2, fun c1 => h2 c1 c2 rest ih.1 (ih.2 c2)⟩
  exact fun l => (key l).1

theorem replaceBad_cons (a : Char) (l : List Char) :
    replaceBadWhitespace (a :: l) = badToSpace a :: replaceBadWhitespace l := by
  simp only [replaceBadWhitespace, badWhitespaceChars, List.foldl_cons, List.foldl_nil,
    replaceCharWithSpace, List.map_cons]
  congr 1
  by_cases h1 : a = '\u00A0' <;> by_cases h2 : a = '\u2007' <;>
    by_cases h3 : a = '\u202F' <;> by_cases h4 : a = '\uFEFF' <;>
    simp_all [badToSpace, isBadWhitespace]

theorem replaceBadWhitespace_eq_map (l : List Char) :
    replaceBadWhitespace l = l.map badToSpace := by
  induction l with
  | nil => rfl
  | cons a l ih => rw [replaceBad_cons, List.map_cons, ih]

theorem badToSpace_not_bad (a : Char) : isBadWhitespace (badToSpace a) = false := by
  by_cases hb : isBadWhitespace a = true
  · simp [badToSpace, hb]
    decide
  · simp [badToSpace, hb]

theorem clean_map_badToSpace (l : List Char) :
    cleanOfBadWhitespace (l.map badToSpace) = true := by
  simp only [cleanOfBadWhitespace, List.all_eq_true, List.mem_map]
  rintro c ⟨a, _, rfl⟩
  simp [badToSpace_not_bad]

theorem map_badToSpace_of_clean (l : List Char) (h : cleanOfBadWhitespace l = true) :
    l.map badToSpace = l := by
  simp only [cleanOfBadWhitespace, List.all_eq_true] at h
  induction l with
  | nil => rfl
  | cons a l ih =>
    have ha := h a (List.mem_cons_self a l)
    simp only [Bool.not_eq_true'] at ha
    simp only [List.map_cons, badToSpace, ha, if_neg Bool.false_ne_true]
    rw [ih (fun c hc => h c (List.mem_cons_of_mem a hc))]

theorem replaceCRLF_sublist : ∀ l, (replaceCRLF l).Sublist l := by
  apply twoStepList
  · simp [replaceCRLF]
  · intro c; simp [replaceCRLF]
  · intro c1 c2 rest ih1 _
    cases hcond : (c1 == '\r' && c2 == '\n') with
    | true =>
      simp only [Bool.and_eq_true, beq_iff_eq] at hcond
      obtain ⟨rfl, rfl⟩ := hcond
      simp only [replaceCRLF, if_pos (by decide : (('\r' : Char) == '\r' && ('\n' : Char) == '\n') = true)]
      exact List.Sublist.cons _ (List.Sublist.cons₂ _ ih1)
    | false =>
      simp only [replaceCRLF, hcond, if_neg Bool.false_ne_true]
      exact List.Sublist.cons₂ _ (by assumption)

theorem replaceCRLF_of_not_hasCRLF : ∀ l, hasCRLF l = false → replaceCRLF l = l := by
  apply twoStepList
  · intro _; rfl
  · intro c _; rfl
  · intro c1 c2 rest _ ih2 h
    simp only [hasCRLF, Bool.or_eq_false_iff] at h
    simp only [replaceCRLF, h.1, if_neg Bool.false_ne_true]
    rw [ih2 h.2]

theorem replaceCRLF_length_lt : ∀ l, hasCRLF l = true → (replaceCRLF l).length < l.length := by
  apply twoStepList
  · intro h; simp [hasCRLF] at h
  · intro c h; simp [hasCRLF] at h
  · intro c1 c2 rest _ ih2 h
    cases hcond : (c1 == '\r' && c2 == '\n') with
    | true =>
      simp only [Bool.and_eq_true, beq_iff_eq] at hcond
      obtain ⟨rfl, rfl⟩ := hcond
      simp only [replaceCRLF, if_pos (by decide : (('\r' : Char) == '\r' && ('\n' : Char) == '\n') = true)]
      have := (replaceCRLF_sublist rest).length_le
      simp only [List.length_cons]
      omega
    | false =>
      simp only [hasCRLF, hcond, Bool.false_or] at h
      have := ih2 h
      simp only [List.length_cons] at this
      simp only [replaceCRLF, hcond, if_neg Bool.false_ne_true, List.length_cons]
      omega

theorem badToSpace_beq_cr (c : Char) : (badToSpace c == '\r') = (c == '\r') := by
  by_cases hb : isBadWhitespace c = true
  · have hc : c ≠ '\r' := by
      intro hc; subst hc; exact absurd hb (by decide)
    rw [badToSpace, if_pos hb, beq_eq_false_iff_ne.mpr hc]
    decide
  · rw [badToSpace, if_neg hb]

theorem badToSpace_beq_lf (c : Char) : (badToSpace c == '\n') = (c == '\n') := by
  by_cases hb : isBadWhitespace c = true
  · have hc : c ≠ '\n' := by
      intro hc; subst hc; exact absurd hb (by decide)
    rw [badToSpace, if_pos hb, beq_eq_false_iff_ne.mpr hc]
    decide
  · rw [badToSpace, if_neg hb]

theorem hasCRLF_map_badToSpace : ∀ l, hasCRLF (l.map badToSpace) = hasCRLF l := by
  apply twoStepList
  · rfl
  · intro c; rfl
  · intro c1 c2 rest _ ih2
    simp only [List.map_cons, hasCRLF, badToSpace_beq_cr, badToSpace_beq_lf]
    rw [show (badToSpace c2 :: rest.map badToSpace) = (c2 :: rest).map badToSpace by simp,
      ih2]

theorem clean_of_sublist {l1 l2 : List Char} (h : l1.Sublist l2)
    (h2 : cleanOfBadWhitespace l2 = true) : cleanOfBadWhitespace l1 = true := by
  simp only [cleanOfBadWhitespace, List.all_eq_true] at h2 ⊢
  exact fun c hc => h2 c (h.mem hc)

theorem sanitize_data (s : String) :
    (sanitize_prompt_text s).data = replaceCRLF (s.data.map badToSpace) := by
  rw [sanitize_prompt_text, replaceBadWhitespace_eq_map]

theorem sanitize_clean (s : String) :
    cleanOfBadWhitespace (sanitize_prompt_text s).data = true := by
  rw [sanitize_data]
  exact clean_of_sublist (replaceCRLF_sublist _) (clean_map_badToSpace _)

/-! ## C3 and C4 theorems -/

/-- C3 counterexample: the claim says the sanitization applied to the full
file text before parsing normalizes every CRLF to LF, so the text handed to
the parser contains no CRLF sequence.  On the text "a\r\nb", `_load_yaml`'s
sanitization leaves the text unchanged and it still contains CRLF. -/
theorem file_sanitize_crlf_counterexample :
    fileSanitize "a\r\nb" = "a\r\nb" ∧ hasCRLF (fileSanitize "a\r\nb").data = true :=
  ⟨rfl, rfl⟩

/-- C3 (amended): the file-level sanitization in `_load_yaml` replaces every
occurrence of the four code points U+00A0, U+2007, U+202F, U+FEFF with a
space, so the text handed to the parser contains none of them; but it performs
no CRLF normalization — the presence of CRLF sequences is exactly preserved
(CRLF→LF normalization happens only in `_sanitize_prompt_text`, applied to
individual template strings after parsing). -/
theorem file_sanitize_amended : ∀ s : String,
    cleanOfBadWhitespace (fileSanitize s).data = true ∧
    hasCRLF (fileSanitize s).data = hasCRLF s.data := by
  intro s
  constructor
  · show cleanOfBadWhitespace (replaceBadWhitespace s.data) = true
    rw [replaceBadWhitespace_eq_map]
    exact clean_map_badToSpace _
  · show hasCRLF (replaceBadWhitespace s.data) = hasCRLF s.data
    rw [replaceBadWhitespace_eq_map]
    exact hasCRLF_map_badToSpace _

/-- C4 counterexample: the claim says `_sanitize_prompt_text` is idempotent
for every string.  On "\r\r\n" one application yields "\r\n" (the `replace`
scan consumes the second CR with the LF, re-creating a CRLF adjacency), and a
second application yields "\n", so the sanitizer is not idempotent. -/
theorem sanitize_idem_counterexample :
    sanitize_prompt_text "\r\r\n" = "\r\n" ∧
    sanitize_prompt_text (sanitize_prompt_text "\r\r\n") = "\n" ∧
    sanitize_prompt_text (sanitize_prompt_text "\r\r\n") ≠ sanitize_prompt_text "\r\r\n" := by
  refine ⟨rfl, rfl, ?_⟩
  decide

/-- C4 (amended): `_sanitize_prompt_text` is a total function on strings and
its output contains zero occurrences of the four marked whitespace code
points for every input; it is idempotent exactly on those strings whose
once-sanitized form contains no CRLF sequence (in general idempotence fails,
e.g. on "\r\r\n"). -/
theorem sanitize_total_clean_amended : ∀ s : String,
    cleanOfBadWhitespace (sanitize_prompt_text s).data = true ∧
    (sanitize_prompt_text (sanitize_prompt_text s) = sanitize_prompt_text s ↔
      hasCRLF (sanitize_prompt_text s).data = false) := by
  intro s
  refine ⟨sanitize_clean s, ?_⟩
  have hclean : cleanOfBadWhitespace (sanitize_prompt_text s).data = true := sanitize_clean s
  have hmap : (sanitize_prompt_text s).data.map badToSpace = (sanitize_prompt_text s).data :=
    map_badToSpace_of_clean _ hclean
  have hdata : (sanitize_prompt_text (sanitize_prompt_text s)).data
      = replaceCRLF (sanitize_prompt_text s).data := by
    rw [sanitize_data, hmap]
  constructor
  · intro h
    by_contra hcr
    have hcr' : hasCRLF (sanitize_prompt_text s).data = true := by
      cases hval : hasCRLF (sanitize_prompt_text s).data with
      | true => rfl
      | false => exact absurd hval hcr
    have hlt := replaceCRLF_length_lt _ hcr'
    have heq : (sanitize_prompt_text (sanitize_prompt_text s)).data
        = (sanitize_prompt_text s).data := congrArg String.data h
    rw [hdata] at heq
    rw [heq] at hlt
    exact absurd hlt (lt_irrefl _)
  · intro h
    show String.mk (replaceCRLF (replaceBadWhitespace (sanitize_prompt_text s).data))
      = sanitize_prompt_text s
    rw [replaceBadWhitespace_eq_map, hmap, replaceCRLF_of_not_hasCRLF _ h]

/-! ## C1: canonicalization of llm.max_rows_per_run -/

/-- C1: `_validate_max_rows_per_run` canonicalizes null, the case-insensitive
string "all", and every non-positive integer (given as an integer or as a
numeric string) to the "no limit" sentinel `none`; every positive integer
(integer or numeric string) to that integer; and any other string fails with
an error naming llm.max_rows_per_run. -/
theorem max_rows_per_run_canonical :
    (validate_max_rows_per_run Yaml.null = .ok none)
    ∧ (∀ s, pyLower (pyStrip s) = "all" → validate_max_rows_per_run (.str s) = .ok none)
    ∧ (∀ n : Int, n ≤ 0 → validate_max_rows_per_run (.int n) = .ok none)
    ∧ (∀ s n, pyIntOfString (pyLower (pyStrip s)) = some n → n ≤ 0 →
        validate_max_rows_per_run (.str s) = .ok none)
    ∧ (∀ n : Int, 0 < n → validate_max_rows_per_run (.int n) = .ok (some n))
    ∧ (∀ s n, pyIntOfString (pyLower (pyStrip s)) = some n → 0 < n →
        validate_max_rows_per_run (.str s) = .ok (some n))
    ∧ (∀ s, pyLower (pyStrip s) ≠ "all" → pyIntOfString (pyLower (pyStrip s)) = none →
        validate_max_rows_per_run (.str s) =
          .error "llm.max_rows_per_run must be \"all\", null, or an integer") := by
  refine ⟨rfl, ?_, ?_, ?_, ?_, ?_, ?_⟩
  · intro s h
    simp [validate_max_rows_per_run, h]
  · intro n h
    simp [validate_max_rows_per_run, h]
  · intro s n h1 h2
    have hne : pyLower (pyStrip s) ≠ "all" := by
      intro he
      rw [he] at h1
      rw [show pyIntOfString "all" = none from by decide] at h1
      exact Option.noConfusion h1
    simp [validate_max_rows_per_run, hne, h1, h2]
  · intro n h
    simp [validate_max_rows_per_run, h]
  · intro s n h1 h2
    have hne : pyLower (pyStrip s) ≠ "all" := by
      intro he
      rw [he] at h1
      rw [show pyIntOfString "all" = none from by decide] at h1
      exact Option.noConfusion h1
    simp [validate_max_rows_per_run, hne, h1]
    omega
  · intro s h1 h2
    simp [validate_max_rows_per_run, h1, h2]

/-- C1 witness: concrete instances of every branch. -/
theorem max_rows_per_run_canonical_witness :
    validate_max_rows_per_run (Yaml.str " ALL ") = .ok none
    ∧ validate_max_rows_per_run (Yaml.int (-3)) = .ok none
    ∧ validate_max_rows_per_run (Yaml.str "-3") = .ok none
    ∧ validate_max_rows_per_run (Yaml.int 7) = .ok (some 7)
    ∧ validate_max_rows_per_run (Yaml.str " 7 ") = .ok (some 7)
    ∧ validate_max_rows_per_run (Yaml.str "xyz")
        = .error "llm.max_rows_per_run must be \"all\", null, or an integer" := by
  have h := max_rows_per_run_canonical
  exact ⟨h.2.1 " ALL " (by decide), h.2.2.1 (-3) (by decide),
    h.2.2.2.1 "-3" (-3) (by decide) (by decide), h.2.2.2.2.1 7 (by decide),
    h.2.2.2.2.2.1 " 7 " 7 (by decide) (by decide),
    h.2.2.2.2.2.2 "xyz" (by decide) (by decide)⟩

/-! ## C2: non-mapping roots, and C9: the null document -/

/-- C2 counterexample: the claim says every non-mapping root — including
falsy scalars such as 0, false, or the empty string — fails with the
root-must-be-a-mapping error in every loader.  In the code,
`data = yaml.safe_load(text) or {}` coerces every falsy parsed root to the
empty mapping: `load_parameters` on root 0 and `load_credentials` on root
false succeed with the all-defaults objects, and `load_prompts` on the root
"" fails with the missing-meta error, not the root error. -/
theorem falsy_root_counterexample :
    load_parameters (Yaml.int 0) = .ok defaultParameters
    ∧ load_credentials (Yaml.bool false) = .ok defaultCredentials
    ∧ load_prompts (Yaml.str "")
        = .error (.schemaErr "prompts.yaml missing required 'meta' mapping") :=
  ⟨rfl, rfl, rfl⟩

/-- C2 (amended): every document whose parsed root is truthy (in the Python
sense) and not a mapping fails with the root-must-be-a-mapping error in every
loader entry point; every falsy parsed root (null, 0, false, the empty
string, the empty sequence) is instead silently coerced to the empty
mapping. -/
theorem nonmapping_root_amended :
    (∀ v : Yaml, v.truthy = true → isYamlMap v = false →
       load_parameters v = .error (.schemaErr "YAML root must be a mapping/object")
       ∧ load_credentials v = .error (.schemaErr "YAML root must be a mapping/object")
       ∧ load_prompt v = .error (.schemaErr "YAML root must be a mapping/object")
       ∧ load_prompts v = .error (.schemaErr "YAML root must be a mapping/object"))
    ∧ (∀ v : Yaml, v.truthy = false → load_yaml_root v = .ok []) := by
  constructor
  · intro v ht hm
    have hr : load_yaml_root v = .error (.schemaErr "YAML root must be a mapping/object") := by
      cases v <;> simp_all [load_yaml_root, Yaml.truthy, isYamlMap]
    exact ⟨by simp [load_parameters, hr], by simp [load_credentials, hr],
      by simp [load_prompt, hr], by simp [load_prompts, hr]⟩
  · intro v hf
    simp [load_yaml_root, hf]

/-- C2 witness: a nonempty list root fails in a loader; an empty-string root
is coerced to the empty mapping. -/
theorem nonmapping_root_amended_witness :
    load_parameters (Yaml.list [Yaml.int 1])
      = .error (.schemaErr "YAML root must be a mapping/object")
    ∧ load_yaml_root (Yaml.str "") = .ok [] := by
  have h := nonmapping_root_amended
  exact ⟨(h.1 (Yaml.list [Yaml.int 1]) rfl rfl).1, h.2 (Yaml.str "") rfl⟩

/-- C9: a file whose sanitized text parses to the null document (e.g. an
empty file) yields the empty mapping from the raw-tree loader rather than the
root-must-be-a-mapping error, so load_parameters and load_credentials on it
succeed with the all-defaults configurations. -/
theorem null_root_yields_defaults :
    load_yaml_root Yaml.null = .ok []
    ∧ load_parameters Yaml.null = .ok defaultParameters
    ∧ load_credentials Yaml.null = .ok defaultCredentials :=
  ⟨rfl, rfl, rfl⟩

/-! ## Helper lemmas: key lookup -/

theorem load_yaml_root_map (entries : List (String × Yaml)) :
    load_yaml_root (Yaml.map entries) = .ok entries := by
  cases entries with
  | nil => rfl
  | cons e es => rfl

theorem getKey_append (l1 l2 : List (String × Yaml)) (k : String) :
    getKey (l1 ++ l2) k =
      match getKey l1 k with
      | some v => some v
      | none => getKey l2 k := by
  induction l1 with
  | nil => rfl
  | cons kv l1 ih =>
    by_cases hk : (kv.1 == k) = true
    · simp [getKey, hk]
    · simp only [Bool.not_eq_true] at hk
      simp [getKey, hk, ih]

theorem getKey_filter_ne (l : List (String × Yaml)) (k : String) (hk : k ≠ "input") :
    getKey (l.filter (fun kv => kv.1 != "input")) k = getKey l k := by
  induction l with
  | nil => rfl
  | cons kv l ih =>
    by_cases hin : kv.1 = "input"
    · have hne : (kv.1 == k) = false := by
        rw [beq_eq_false_iff_ne, hin]
        exact fun he => hk he.symm
      simp [List.filter_cons, hin, getKey, hne, ih]
      rw [if_neg (fun he => hk he.symm)]
    · simp [List.filter_cons, hin, getKey, ih]

theorem getKey_filter_self (l : List (String × Yaml)) :
    getKey (l.filter (fun kv => kv.1 != "input")) "input" = none := by
  induction l with
  | nil => rfl
  | cons kv l ih =>
    by_cases hin : kv.1 = "input"
    · simp [List.filter_cons, hin, ih]
    · have hne : (kv.1 == "input") = false := beq_eq_false_iff_ne.mpr hin
      simp [List.filter_cons, hin, getKey, hne, ih]

theorem filter_of_getKey_none (l : List (String × Yaml))
    (h : getKey l "input" = none) : l.filter (fun kv => kv.1 != "input") = l := by
  induction l with
  | nil => rfl
  | cons kv l ih =>
    by_cases hin : (kv.1 == "input") = true
    · rw [getKey, if_pos hin] at h
      exact Option.noConfusion h
    · simp only [Bool.not_eq_true] at hin
      rw [getKey, hin, if_neg Bool.false_ne_true] at h
      simp [List.filter_cons, hin, ih h]
      exact beq_eq_false_iff_ne.mp hin

/-! ## C10: load_prompt key preference -/

/-- C10: `load_prompt` selects the value under "System Prompt" whenever that
value is present and non-null (ignoring "system_prompt"), falls back to
"system_prompt" only when the "System Prompt" value is null or absent, and
the final check succeeds exactly when the selected value is a string that is
non-blank after trimming. -/
theorem load_prompt_key_preference :
    (∀ entries, rawGet entries "System Prompt" ≠ Yaml.null →
       load_prompt (Yaml.map entries) = promptCheck (rawGet entries "System Prompt"))
    ∧ (∀ entries, rawGet entries "System Prompt" = Yaml.null →
       load_prompt (Yaml.map entries) = promptCheck (rawGet entries "system_prompt"))
    ∧ (∀ s, pyStrip s ≠ "" → promptCheck (Yaml.str s) = .ok s)
    ∧ (∀ s, pyStrip s = "" → promptCheck (Yaml.str s)
        = .error (.schemaErr "must contain a non-empty 'System Prompt' string"))
    ∧ (∀ v, isStrVal v = false → promptCheck v
        = .error (.schemaErr "must contain a non-empty 'System Prompt' string")) := by
  refine ⟨?_, ?_, ?_, ?_, ?_⟩
  · intro entries h
    simp only [load_prompt, load_yaml_root_map]
  · intro entries h
    simp only [load_prompt, load_yaml_root_map, h]
  · intro s h
    simp [promptCheck, h]
  · intro s h
    simp [promptCheck, h]
  · intro v h
    cases v <;> simp_all [promptCheck, isStrVal]

/-- C10 witness: with both key spellings present, "System Prompt" wins; a
null "System Prompt" falls back to "system_prompt"; blank and non-string
selections fail. -/
theorem load_prompt_key_preference_witness :
    load_prompt (Yaml.map [("System Prompt", Yaml.str "A"), ("system_prompt", Yaml.str "B")])
      = .ok "A"
    ∧ load_prompt (Yaml.map [("System Prompt", Yaml.null), ("system_prompt", Yaml.str "B")])
      = .ok "B"
    ∧ promptCheck (Yaml.str "   ")
      = .error (.schemaErr "must contain a non-empty 'System Prompt' string")
    ∧ promptCheck (Yaml.int 5)
      = .error (.schemaErr "must contain a non-empty 'System Prompt' string") := by
  have h := load_prompt_key_preference
  refine ⟨?_, ?_, h.2.2.2.1 "   " (by decide), h.2.2.2.2 (Yaml.int 5) rfl⟩
  · exact (h.1 [("System Prompt", Yaml.str "A"), ("system_prompt", Yaml.str "B")]
      (fun hc => Yaml.noConfusion hc)).trans (h.2.2.1 "A" (by decide))
  · exact (h.2.1 [("System Prompt", Yaml.null), ("system_prompt", Yaml.str "B")]
      rfl).trans (h.2.2.1 "B" (by decide))

/-! ## C5: backward-compatibility key rename -/

/-- C5: `_backward_compat_keys` never fails (non-mappings pass through), is a
no-op unless `inputs` is absent, `input` is present, and `input` maps to a
mapping; in the rename case it moves the nested content to `inputs`, removes
`input`, and leaves the binding of every other key unchanged; consequently a
legacy document using `input:` with no `inputs:` key validates to the same
ParametersConfig as the document using `inputs:` with identical content. -/
theorem backward_compat_input_rename :
    (∀ d : Yaml, isYamlMap d = false → backward_compat_keys d = d)
    ∧ (∀ entries v, getKey entries "inputs" = some v →
        backward_compat_keys (Yaml.map entries) = Yaml.map entries)
    ∧ (∀ entries, (∀ inner, getKey entries "input" ≠ some (Yaml.map inner)) →
        backward_compat_keys (Yaml.map entries) = Yaml.map entries)
    ∧ (∀ entries inner, getKey entries "inputs" = none →
        getKey entries "input" = some (Yaml.map inner) →
        backward_compat_keys (Yaml.map entries)
          = Yaml.map (entries.filter (fun kv => kv.1 != "input") ++ [("inputs", Yaml.map inner)])
        ∧ (∀ k, k ≠ "input" → k ≠ "inputs" →
            getKey (entriesOf (backward_compat_keys (Yaml.map entries))) k = getKey entries k)
        ∧ getKey (entriesOf (backward_compat_keys (Yaml.map entries))) "inputs"
            = some (Yaml.map inner)
        ∧ getKey (entriesOf (backward_compat_keys (Yaml.map entries))) "input" = none)
    ∧ (∀ rest inner, getKey rest "input" = none → getKey rest "inputs" = none →
        parameters_model_validate (Yaml.map (rest ++ [("input", Yaml.map inner)]))
          = parameters_model_validate (Yaml.map (rest ++ [("inputs", Yaml.map inner)]))) := by
  refine ⟨?_, ?_, ?_, ?_, ?_⟩
  · intro d h
    cases d <;> simp_all [backward_compat_keys, isYamlMap]
  · intro entries v h
    simp [backward_compat_keys, h]
  · intro entries h
    cases h1 : getKey entries "inputs" with
    | some v => simp [backward_compat_keys, h1]
    | none =>
      cases h2 : getKey entries "input" with
      | none => simp [backward_compat_keys, h1, h2]
      | some v =>
        cases v <;> simp [backward_compat_keys, h1, h2]
        case map inner => exact absurd h2 (h inner)
  · intro entries inner h1 h2
    have hshape : backward_compat_keys (Yaml.map entries)
        = Yaml.map (entries.filter (fun kv => kv.1 != "input")
            ++ [("inputs", Yaml.map inner)]) := by
      simp [backward_compat_keys, h1, h2]
    refine ⟨hshape, ?_, ?_, ?_⟩
    · intro k hk1 hk2
      rw [hshape]
      show getKey (entries.filter (fun kv => kv.1 != "input")
        ++ [("inputs", Yaml.map inner)]) k = getKey entries k
      rw [getKey_append, getKey_filter_ne entries k hk1]
      cases hg : getKey entries k with
      | some v => rfl
      | none =>
        have : ("inputs" == k) = false := beq_eq_false_iff_ne.mpr (fun he => hk2 he.symm)
        simp [getKey, this]
    · rw [hshape]
      show getKey (entries.filter (fun kv => kv.1 != "input")
        ++ [("inputs", Yaml.map inner)]) "inputs" = some (Yaml.map inner)
      rw [getKey_append, getKey_filter_ne entries "inputs" (by decide), h1]
      rfl
    · rw [hshape]
      show getKey (entries.filter (fun kv => kv.1 != "input")
        ++ [("inputs", Yaml.map inner)]) "input" = none
      rw [getKey_append, getKey_filter_self entries]
      rfl
  · intro rest inner h1 h2
    have e1 : getKey (rest ++ [("input", Yaml.map inner)]) "inputs" = none := by
      rw [getKey_append, h2]
      rfl
    have e2 : getKey (rest ++ [("input", Yaml.map inner)]) "input"
        = some (Yaml.map inner) := by
      rw [getKey_append, h1]
      rfl
    have e3 : getKey (rest ++ [("inputs", Yaml.map inner)]) "inputs"
        = some (Yaml.map inner) := by
      rw [getKey_append, h2]
      rfl
    have elhs : backward_compat_keys (Yaml.map (rest ++ [("input", Yaml.map inner)]))
        = Yaml.map (rest ++ [("inputs", Yaml.map inner)]) := by
      simp only [backward_compat_keys, e1, e2]
      rw [List.filter_append, filter_of_getKey_none rest h1]
      simp
    have erhs : backward_compat_keys (Yaml.map (rest ++ [("inputs", Yaml.map inner)]))
        = Yaml.map (rest ++ [("inputs", Yaml.map inner)]) := by
      simp [backward_compat_keys, e3]
    rw [parameters_model_validate, parameters_model_validate, elhs, erhs]

/-- C5 witness: a concrete legacy document renames and validates identically
to its modern form. -/
theorem backward_compat_input_rename_witness :
    backward_compat_keys (Yaml.map [("input", Yaml.map [])])
      = Yaml.map [("inputs", Yaml.map [])]
    ∧ parameters_model_validate (Yaml.map [("prompt_key", Yaml.str "x"),
        ("input", Yaml.map [("raw_postings_csv", Yaml.str "a.csv")])])
      = parameters_model_validate (Yaml.map [("prompt_key", Yaml.str "x"),
        ("inputs", Yaml.map [("raw_postings_csv", Yaml.str "a.csv")])]) := by
  have h := backward_compat_input_rename
  exact ⟨(h.2.2.2.1 [("input", Yaml.map [])] [] rfl rfl).1,
    h.2.2.2.2 [("prompt_key", Yaml.str "x")] [("raw_postings_csv", Yaml.str "a.csv")] rfl rfl⟩

/-! ## Helper lemmas: the error-aggregating engine -/

theorem vseq_ok_iff (f : Except FieldErrs (α → β)) (x : Except FieldErrs α) (b : β) :
    vseq f x = .ok b ↔ ∃ g a, f = .ok g ∧ x = .ok a ∧ b = g a := by
  cases f <;> cases x <;> simp [vseq, eq_comm]

theorem errsList_vseq (f : Except FieldErrs (α → β)) (x : Except FieldErrs α) :
    errsList (vseq f x) = errsList f ++ errsList x := by
  cases f <;> cases x <;> simp [vseq, errsList]

theorem vseq_error_ne_nil (f : Except FieldErrs (α → β)) (x : Except FieldErrs α)
    (hf : ∀ es, f = .error es → es ≠ []) (hx : ∀ es, x = .error es → es ≠ []) :
    ∀ es, vseq f x = .error es → es ≠ [] := by
  intro es h
  cases f with
  | ok g =>
    cases x with
    | ok a => exact Except.noConfusion h
    | error e2 =>
      injection h with h1
      subst h1
      exact hx _ rfl
  | error e1 =>
    cases x with
    | ok a =>
      injection h with h1
      subst h1
      exact hf _ rfl
    | error e2 =>
      injection h with h1
      subst h1
      have := hf e1 rfl
      simp [this]

theorem ok_error_ne_nil (g : β) :
    ∀ es, (Except.ok g : Except FieldErrs β) = .error es → es ≠ [] :=
  fun _ h => Except.noConfusion h

theorem fieldE_error_ne_nil (p : String) (r : Except String α) :
    ∀ es, fieldE p r = .error es → es ≠ [] := by
  intro es h
  cases r with
  | ok a => exact Except.noConfusion h
  | error m =>
    injection h with h1
    subst h1
    simp

theorem fieldE_ok_inv (p : String) (r : Except String α) (v : α)
    (h : fieldE p r = .ok v) : r = .ok v := by
  cases r with
  | ok a =>
    injection h with h1
    subst h1
    rfl
  | error m => exact Except.noConfusion h

theorem fieldE_errsList_of_error (p : String) (r : Except String α) (m : String)
    (h : r = .error m) : errsList (fieldE p r) = [(p, m)] := by
  rw [h]
  rfl

theorem subModel_error_ne_nil (path : String) (d : α)
    (f : List (String × Yaml) → Except FieldErrs α)
    (hf : ∀ entries es, f entries = .error es → es ≠ []) :
    ∀ o es, subModel path d f o = .error es → es ≠ [] := by
  intro o es h
  cases o with
  | none => exact Except.noConfusion h
  | some v =>
    cases v with
    | map entries => exact hf entries es h
    | null => injection h with h1; subst h1; simp
    | bool b => injection h with h1; subst h1; simp
    | int n => injection h with h1; subst h1; simp
    | float q => injection h with h1; subst h1; simp
    | str s => injection h with h1; subst h1; simp
    | list items => injection h with h1; subst h1; simp

theorem validateLLMFields_error_ne_nil (entries : List (String × Yaml)) :
    ∀ es, validateLLMFields entries = .error es → es ≠ [] := by
  unfold validateLLMFields
  exact vseq_error_ne_nil _ _ (vseq_error_ne_nil _ _ (vseq_error_ne_nil _ _
    (vseq_error_ne_nil _ _ (vseq_error_ne_nil _ _ (vseq_error_ne_nil _ _
    (vseq_error_ne_nil _ _ (vseq_error_ne_nil _ _ (vseq_error_ne_nil _ _
    (ok_error_ne_nil _) (fieldE_error_ne_nil _ _)) (fieldE_error_ne_nil _ _))
    (fieldE_error_ne_nil _ _)) (fieldE_error_ne_nil _ _)) (fieldE_error_ne_nil _ _))
    (fieldE_error_ne_nil _ _)) (fieldE_error_ne_nil _ _)) (fieldE_error_ne_nil _ _))
    (fieldE_error_ne_nil _ _)

theorem validateProjectFields_error_ne_nil (entries : List (String × Yaml)) :
    ∀ es, validateProjectFields entries = .error es → es ≠ [] := by
  unfold validateProjectFields
  exact vseq_error_ne_nil _ _ (vseq_error_ne_nil _ _
    (ok_error_ne_nil _) (fieldE_error_ne_nil _ _)) (fieldE_error_ne_nil _ _)

theorem validateInputsFields_error_ne_nil (entries : List (String × Yaml)) :
    ∀ es, validateInputsFields entries = .error es → es ≠ [] := by
  unfold validateInputsFields
  exact vseq_error_ne_nil _ _ (vseq_error_ne_nil _ _ (vseq_error_ne_nil _ _
    (vseq_error_ne_nil _ _ (vseq_error_ne_nil _ _ (vseq_error_ne_nil _ _
    (ok_error_ne_nil _) (fieldE_error_ne_nil _ _)) (fieldE_error_ne_nil _ _))
    (fieldE_error_ne_nil _ _)) (fieldE_error_ne_nil _ _)) (fieldE_error_ne_nil _ _))
    (fieldE_error_ne_nil _ _)

theorem validateOutputsFields_error_ne_nil (entries : List (String × Yaml)) :
    ∀ es, validateOutputsFields entries = .error es → es ≠ [] := by
  unfold validateOutputsFields
  exact vseq_error_ne_nil _ _ (vseq_error_ne_nil _ _ (vseq_error_ne_nil _ _
    (vseq_error_ne_nil _ _ (vseq_error_ne_nil _ _
    (ok_error_ne_nil _) (fieldE_error_ne_nil _ _)) (fieldE_error_ne_nil _ _))
    (fieldE_error_ne_nil _ _)) (fieldE_error_ne_nil _ _)) (fieldE_error_ne_nil _ _)

theorem validateParametersFields_error_ne_nil (entries : List (String × Yaml)) :
    ∀ es, validateParametersFields entries = .error es → es ≠ [] := by
  unfold validateParametersFields
  exact vseq_error_ne_nil _ _ (vseq_error_ne_nil _ _ (vseq_error_ne_nil _ _
    (vseq_error_ne_nil _ _ (vseq_error_ne_nil _ _
    (ok_error_ne_nil _)
    (subModel_error_ne_nil _ _ _ validateProjectFields_error_ne_nil _))
    (subModel_error_ne_nil _ _ _ validateInputsFields_error_ne_nil _))
    (subModel_error_ne_nil _ _ _ validateLLMFields_error_ne_nil _))
    (subModel_error_ne_nil _ _ _ validateOutputsFields_error_ne_nil _))
    (fieldE_error_ne_nil _ _)

theorem parameters_model_validate_error_ne_nil (d : Yaml) (es : FieldErrs)
    (h : parameters_model_validate d = .error es) : es ≠ [] := by
  unfold parameters_model_validate at h
  cases hb : backward_compat_keys d with
  | map entries =>
    rw [hb] at h
    exact validateParametersFields_error_ne_nil entries es h
  | null => rw [hb] at h; injection h with h1; subst h1; simp
  | bool b => rw [hb] at h; injection h with h1; subst h1; simp
  | int n => rw [hb] at h; injection h with h1; subst h1; simp
  | float q => rw [hb] at h; injection h with h1; subst h1; simp
  | str s => rw [hb] at h; injection h with h1; subst h1; simp
  | list items => rw [hb] at h; injection h with h1; subst h1; simp

/-! ## Helper lemmas: per-field invariants on success -/

theorem validate_positive_int_pos (name : String) (m n : Int)
    (h : validate_positive_int name m = .ok n) : 0 < n := by
  unfold validate_positive_int at h
  split at h
  · exact Except.noConfusion h
  · injection h with h1
    omega

theorem llmField_max_workers_pos (o : Option Yaml) (n : Int)
    (h : llmField_max_workers o = .ok n) : 0 < n := by
  cases o with
  | none => injection h with h1; omega
  | some v =>
    simp only [llmField_max_workers, withDefault] at h
    split at h
    · exact validate_positive_int_pos _ _ _ h
    · exact Except.noConfusion h

theorem llmField_max_retries_pos (o : Option Yaml) (n : Int)
    (h : llmField_max_retries o = .ok n) : 0 < n := by
  cases o with
  | none => injection h with h1; omega
  | some v =>
    simp only [llmField_max_retries, withDefault] at h
    split at h
    · exact validate_positive_int_pos _ _ _ h
    · exact Except.noConfusion h

theorem llmField_temperature_bounds (o : Option Yaml) (q : Rat)
    (h : llmField_temperature o = .ok q) : 0 ≤ q ∧ q ≤ 2 := by
  cases o with
  | none =>
    injection h with h1
    subst h1
    constructor <;> norm_num
  | some v =>
    simp only [llmField_temperature, withDefault] at h
    split at h
    · unfold validate_temperature at h
      split at h
      · exact Except.noConfusion h
      · rename_i hcond
        injection h with h1
        subst h1
        push_neg at hcond
        exact ⟨hcond.1, hcond.2⟩
    · exact Except.noConfusion h

theorem validate_progress_log_every_pos (o : Option Yaml) (n : Int)
    (h : validate_progress_log_every o = .ok n) : 0 < n := by
  unfold validate_progress_log_every at h
  split at h
  · injection h with h1; omega
  · injection h with h1; omega
  · split at h
    · exact Except.noConfusion h
    · split at h
      · exact Except.noConfusion h
      · injection h with h1
        omega

theorem validate_max_rows_per_run_pos (v : Yaml) (mo : Option Int) (k : Int)
    (h : validate_max_rows_per_run v = .ok mo) (hk : mo = some k) : 0 < k := by
  subst hk
  cases v with
  | null => injection h with h1; exact Option.noConfusion h1
  | str s =>
    simp only [validate_max_rows_per_run] at h
    split at h
    · injection h with h1; exact Option.noConfusion h1
    · split at h
      · exact Except.noConfusion h
      · injection h with h1
        split at h1
        · exact Option.noConfusion h1
        · injection h1 with h2
          omega
  | int n =>
    injection h with h1
    split at h1
    · exact Option.noConfusion h1
    · injection h1 with h2
      omega
  | bool b =>
    injection h with h1
    cases b <;> simp_all
    omega
  | float q => exact Except.noConfusion h
  | list items => exact Except.noConfusion h
  | map entries => exact Except.noConfusion h

theorem validateLLM_max_rows_pos (o : Option Yaml) (mo : Option Int) (k : Int)
    (h : validateLLM_max_rows o = .ok mo) (hk : mo = some k) : 0 < k := by
  cases o with
  | none =>
    injection h with h1
    subst h1
    exact Option.noConfusion hk
  | some v => exact validate_max_rows_per_run_pos v mo k h hk

theorem validateLLMFields_ok_inv (entries : List (String × Yaml)) (c : LLMConfig)
    (h : validateLLMFields entries = .ok c) :
    llmField_model_name (getKey entries "model_name") = .ok c.model_name
    ∧ llmField_temperature (getKey entries "temperature") = .ok c.temperature
    ∧ validate_progress_log_every (getKey entries "progress_log_every")
        = .ok c.progress_log_every
    ∧ llmField_max_workers (getKey entries "max_workers") = .ok c.max_workers
    ∧ llmField_silence (getKey entries "silence_client_lv_logs")
        = .ok c.silence_client_lv_logs
    ∧ llmField_json_only (getKey entries "json_only") = .ok c.json_only
    ∧ llmField_max_retries (getKey entries "max_retries") = .ok c.max_retries
    ∧ validateLLM_max_rows (getKey entries "max_rows_per_run") = .ok c.max_rows_per_run
    ∧ llmField_force (getKey entries "force") = .ok c.force := by
  unfold validateLLMFields at h
  obtain ⟨g9, a9, h8, hf9, rfl⟩ := (vseq_ok_iff _ _ _).mp h
  obtain ⟨g8, a8, h7, hf8, rfl⟩ := (vseq_ok_iff _ _ _).mp h8
  obtain ⟨g7, a7, h6, hf7, rfl⟩ := (vseq_ok_iff _ _ _).mp h7
  obtain ⟨g6, a6, h5, hf6, rfl⟩ := (vseq_ok_iff _ _ _).mp h6
  obtain ⟨g5, a5, h4, hf5, rfl⟩ := (vseq_ok_iff _ _ _).mp h5
  obtain ⟨g4, a4, h3, hf4, rfl⟩ := (vseq_ok_iff _ _ _).mp h4
  obtain ⟨g3, a3, h2, hf3, rfl⟩ := (vseq_ok_iff _ _ _).mp h3
  obtain ⟨g2, a2, h1, hf2, rfl⟩ := (vseq_ok_iff _ _ _).mp h2
  obtain ⟨g1, a1, h0, hf1, rfl⟩ := (vseq_ok_iff _ _ _).mp h1
  injection h0 with hg1
  subst hg1
  exact ⟨fieldE_ok_inv _ _ _ hf1, fieldE_ok_inv _ _ _ hf2, fieldE_ok_inv _ _ _ hf3,
    fieldE_ok_inv _ _ _ hf4, fieldE_ok_inv _ _ _ hf5, fieldE_ok_inv _ _ _ hf6,
    fieldE_ok_inv _ _ _ hf7, fieldE_ok_inv _ _ _ hf8, fieldE_ok_inv _ _ _ hf9⟩

theorem validateParametersFields_ok_inv (entries : List (String × Yaml))
    (c : ParametersConfig) (h : validateParametersFields entries = .ok c) :
    subModel "project" ({} : ProjectConfig) validateProjectFields (getKey entries "project")
        = .ok c.project
    ∧ subModel "inputs" ({} : InputsConfig) validateInputsFields (getKey entries "inputs")
        = .ok c.inputs
    ∧ subModel "llm" ({} : LLMConfig) validateLLMFields (getKey entries "llm") = .ok c.llm
    ∧ subModel "outputs" ({} : OutputsConfig) validateOutputsFields (getKey entries "outputs")
        = .ok c.outputs
    ∧ fieldE "prompt_key" (withDefault "job_posting_dq_eval_v1" coerceStr
        (getKey entries "prompt_key")) = .ok c.prompt_key := by
  unfold validateParametersFields at h
  obtain ⟨g5, a5, h4, hf5, rfl⟩ := (vseq_ok_iff _ _ _).mp h
  obtain ⟨g4, a4, h3, hf4, rfl⟩ := (vseq_ok_iff _ _ _).mp h4
  obtain ⟨g3, a3, h2, hf3, rfl⟩ := (vseq_ok_iff _ _ _).mp h3
  obtain ⟨g2, a2, h1, hf2, rfl⟩ := (vseq_ok_iff _ _ _).mp h2
  obtain ⟨g1, a1, h0, hf1, rfl⟩ := (vseq_ok_iff _ _ _).mp h1
  injection h0 with hg1
  subst hg1
  exact ⟨hf1, hf2, hf3, hf4, hf5⟩

theorem subModel_llm_ok_inv (o : Option Yaml) (c : LLMConfig)
    (h : subModel "llm" ({} : LLMConfig) validateLLMFields o = .ok c) :
    0 < c.max_workers ∧ 0 < c.max_retries ∧ 0 < c.progress_log_every ∧
    0 ≤ c.temperature ∧ c.temperature ≤ 2 ∧
    (∀ k, c.max_rows_per_run = some k → 0 < k) := by
  cases o with
  | none =>
    injection h with h1
    subst h1
    refine ⟨by norm_num, by norm_num, by norm_num, by norm_num, by norm_num, ?_⟩
    intro k hk
    exact Option.noConfusion hk
  | some v =>
    cases v with
    | map entries =>
      have hv := validateLLMFields_ok_inv entries c h
      exact ⟨llmField_max_workers_pos _ _ hv.2.2.2.1,
        llmField_max_retries_pos _ _ hv.2.2.2.2.2.2.1,
        validate_progress_log_every_pos _ _ hv.2.2.1,
        (llmField_temperature_bounds _ _ hv.2.1).1,
        (llmField_temperature_bounds _ _ hv.2.1).2,
        fun k hk => validateLLM_max_rows_pos _ _ k hv.2.2.2.2.2.2.2.1 hk⟩
    | null => exact Except.noConfusion h
    | bool b => exact Except.noConfusion h
    | int n => exact Except.noConfusion h
    | float q => exact Except.noConfusion h
    | str s => exact Except.noConfusion h
    | list items => exact Except.noConfusion h

theorem validateLLMFields_errsList (entries : List (String × Yaml)) :
    errsList (validateLLMFields entries) =
      errsList (fieldE "llm.model_name" (llmField_model_name (getKey entries "model_name")))
      ++ errsList (fieldE "llm.temperature"
          (llmField_temperature (getKey entries "temperature")))
      ++ errsList (fieldE "llm.progress_log_every"
          (validate_progress_log_every (getKey entries "progress_log_every")))
      ++ errsList (fieldE "llm.max_workers"
          (llmField_max_workers (getKey entries "max_workers")))
      ++ errsList (fieldE "llm.silence_client_lv_logs"
          (llmField_silence (getKey entries "silence_client_lv_logs")))
      ++ errsList (fieldE "llm.json_only" (llmField_json_only (getKey entries "json_only")))
      ++ errsList (fieldE "llm.max_retries"
          (llmField_max_retries (getKey entries "max_retries")))
      ++ errsList (fieldE "llm.max_rows_per_run"
          (validateLLM_max_rows (getKey entries "max_rows_per_run")))
      ++ errsList (fieldE "llm.force" (llmField_force (getKey entries "force"))) := by
  unfold validateLLMFields
  simp only [errsList_vseq]
  simp [errsList]

theorem validateParametersFields_errsList (entries : List (String × Yaml)) :
    errsList (validateParametersFields entries) =
      errsList (subModel "project" ({} : ProjectConfig) validateProjectFields
        (getKey entries "project"))
      ++ errsList (subModel "inputs" ({} : InputsConfig) validateInputsFields
        (getKey entries "inputs"))
      ++ errsList (subModel "llm" ({} : LLMConfig) validateLLMFields
        (getKey entries "llm"))
      ++ errsList (subModel "outputs" ({} : OutputsConfig) validateOutputsFields
        (getKey entries "outputs"))
      ++ errsList (fieldE "prompt_key" (withDefault "job_posting_dq_eval_v1" coerceStr
        (getKey entries "prompt_key"))) := by
  unfold validateParametersFields
  simp only [errsList_vseq]
  simp [errsList]

/-! ## C7: total validation with aggregated errors, no partially-valid object -/

/-- C7: validation of a raw Parameters document either returns a fully
validated object (whose fields all satisfy their invariants — no partially
valid object is ever returned) or fails with a single nonempty aggregated
error list; the aggregated list contains an entry for every invalid llm
field (field path and reason), not just the first, and every error of the
llm section is contained in the document-level error report. -/
theorem parameters_validation_total_aggregated :
    (∀ d : Yaml, (∃ c, parameters_model_validate d = .ok c)
       ∨ (∃ es, parameters_model_validate d = .error es ∧ es ≠ []))
    ∧ (∀ d c, parameters_model_validate d = .ok c →
        0 < c.llm.max_workers ∧ 0 < c.llm.max_retries ∧ 0 < c.llm.progress_log_every ∧
        0 ≤ c.llm.temperature ∧ c.llm.temperature ≤ 2 ∧
        (∀ k, c.llm.max_rows_per_run = some k → 0 < k))
    ∧ (∀ entries es, validateLLMFields entries = .error es →
        (∀ m, llmField_max_workers (getKey entries "max_workers") = .error m →
          ("llm.max_workers", m) ∈ es)
        ∧ (∀ m, llmField_max_retries (getKey entries "max_retries") = .error m →
          ("llm.max_retries", m) ∈ es)
        ∧ (∀ m, validate_progress_log_every (getKey entries "progress_log_every") = .error m →
          ("llm.progress_log_every", m) ∈ es)
        ∧ (∀ m, llmField_temperature (getKey entries "temperature") = .error m →
          ("llm.temperature", m) ∈ es)
        ∧ (∀ m, validateLLM_max_rows (getKey entries "max_rows_per_run") = .error m →
          ("llm.max_rows_per_run", m) ∈ es))
    ∧ (∀ entries es, validateParametersFields entries = .error es →
        ∀ x ∈ errsList (subModel "llm" ({} : LLMConfig) validateLLMFields
          (getKey entries "llm")), x ∈ es) := by
  refine ⟨?_, ?_, ?_, ?_⟩
  · intro d
    cases hr : parameters_model_validate d with
    | ok c => exact Or.inl ⟨c, rfl⟩
    | error es =>
      exact Or.inr ⟨es, rfl, parameters_model_validate_error_ne_nil d es hr⟩
  · intro d c h
    unfold parameters_model_validate at h
    cases hb : backward_compat_keys d with
    | map entries =>
      rw [hb] at h
      exact subModel_llm_ok_inv _ _ (validateParametersFields_ok_inv entries c h).2.2.1
    | null => rw [hb] at h; exact Except.noConfusion h
    | bool b => rw [hb] at h; exact Except.noConfusion h
    | int n => rw [hb] at h; exact Except.noConfusion h
    | float q => rw [hb] at h; exact Except.noConfusion h
    | str s => rw [hb] at h; exact Except.noConfusion h
    | list items => rw [hb] at h; exact Except.noConfusion h
  · intro entries es h
    have hes : es = errsList (validateLLMFields entries) := by
      rw [h]
      rfl
    rw [validateLLMFields_errsList] at hes
    subst hes
    refine ⟨?_, ?_, ?_, ?_, ?_⟩ <;> intro m hm <;>
      rw [fieldE_errsList_of_error _ _ _ hm] <;> simp [List.mem_append]
  · intro entries es h
    have hes : es = errsList (validateParametersFields entries) := by
      rw [h]
      rfl
    rw [validateParametersFields_errsList] at hes
    subst hes
    intro x hx
    simp only [List.mem_append]
    tauto

/-- C7 witness: the all-defaults document validates with all invariants; a
document with two invalid llm fields reports both field paths. -/
theorem parameters_validation_total_aggregated_witness :
    (0 : Int) < defaultParameters.llm.max_workers
    ∧ ("llm.max_workers", "llm.max_workers must be > 0")
        ∈ [(("llm.max_workers" : String), ("llm.max_workers must be > 0" : String)),
           ("llm.max_retries", "llm.max_retries must be > 0")]
    ∧ ("llm.max_retries", "llm.max_retries must be > 0")
        ∈ [(("llm.max_workers" : String), ("llm.max_workers must be > 0" : String)),
           ("llm.max_retries", "llm.max_retries must be > 0")] := by
  have h := parameters_validation_total_aggregated
  have h2 := h.2.2.1 [("max_workers", Yaml.int 0), ("max_retries", Yaml.int (-2))]
    [("llm.max_workers", "llm.max_workers must be > 0"),
     ("llm.max_retries", "llm.max_retries must be > 0")] (by rfl)
  exact ⟨(h.2.1 (Yaml.map []) defaultParameters rfl).1,
    h2.1 "llm.max_workers must be > 0" rfl, h2.2.1 "llm.max_retries must be > 0" rfl⟩

/-! ## C6: llm.progress_log_every validation -/

/-- C6: `_validate_progress_log_every` accepts absent or null (yielding 100),
coerces integer and numeric-string inputs to an integer, rejects non-numeric
strings and values ≤ 0; and a Parameters document with `llm.max_workers = 0`
fails validation, while the same document with `max_workers = 1` validates
with `llm.progress_log_every = 100`. -/
theorem progress_log_every_spec :
    (validate_progress_log_every none = .ok 100)
    ∧ (validate_progress_log_every (some Yaml.null) = .ok 100)
    ∧ (∀ n : Int, 0 < n → validate_progress_log_every (some (.int n)) = .ok n)
    ∧ (∀ s n, pyIntOfString s = some n → 0 < n →
        validate_progress_log_every (some (.str s)) = .ok n)
    ∧ (∀ s, pyIntOfString s = none →
        validate_progress_log_every (some (.str s))
          = .error "llm.progress_log_every must be an integer")
    ∧ (∀ v n, pyIntCoerce v = some n → n ≤ 0 →
        validate_progress_log_every (some v)
          = .error "llm.progress_log_every must be > 0")
    ∧ (load_parameters (Yaml.map [("llm", Yaml.map [("max_workers", Yaml.int 0)])])
        = .error (.fieldErrs [("llm.max_workers", "llm.max_workers must be > 0")]))
    ∧ (∃ c, load_parameters (Yaml.map [("llm", Yaml.map [("max_workers", Yaml.int 1)])])
        = .ok c ∧ c.llm.progress_log_every = 100) := by
  refine ⟨rfl, rfl, ?_, ?_, ?_, ?_, by rfl, ?_⟩
  · intro n h
    simp only [validate_progress_log_every, pyIntCoerce]
    simp [h]
  · intro s n h1 h2
    simp only [validate_progress_log_every, pyIntCoerce]
    rw [h1]
    simp
    omega
  · intro s h
    simp only [validate_progress_log_every, pyIntCoerce]
    rw [h]
  · intro v n h1 h2
    cases v with
    | null => simp [pyIntCoerce] at h1
    | bool b =>
      simp only [validate_progress_log_every]
      rw [h1]
      simp [h2]
    | int k =>
      simp only [validate_progress_log_every]
      rw [h1]
      simp [h2]
    | float q =>
      simp only [validate_progress_log_every]
      rw [h1]
      simp [h2]
    | str s =>
      simp only [validate_progress_log_every]
      rw [h1]
      simp [h2]
    | list items => simp [pyIntCoerce] at h1
    | map m => simp [pyIntCoerce] at h1
  · exact ⟨{ llm := { max_workers := 1 } }, by rfl, rfl⟩

/-- C6 witness: concrete instances of the coercion and rejection branches. -/
theorem progress_log_every_spec_witness :
    validate_progress_log_every (some (Yaml.int 7)) = .ok 7
    ∧ validate_progress_log_every (some (Yaml.str "8")) = .ok 8
    ∧ validate_progress_log_every (some (Yaml.str "abc"))
        = .error "llm.progress_log_every must be an integer"
    ∧ validate_progress_log_every (some (Yaml.int 0))
        = .error "llm.progress_log_every must be > 0" := by
  have h := progress_log_every_spec
  exact ⟨h.2.2.1 7 (by decide), h.2.2.2.1 "8" 8 (by decide) (by decide),
    h.2.2.2.2.1 "abc" (by decide), h.2.2.2.2.2.1 (Yaml.int 0) 0 (by decide) (by decide)⟩

/-! ## C8: multi-prompt loading (load_prompts / load_prompt_templates) -/

theorem promptPairs_first_bad (pre : List (String × Yaml)) (k : String) (v : Yaml)
    (post : List (String × Yaml)) (hpre : ∀ p ∈ pre, isStrVal p.2 = true)
    (hv : isStrVal v = false) :
    promptPairs (pre ++ (k, v) :: post)
      = .error ("prompts.yaml prompts must be string->string for key=" ++ k) := by
  induction pre with
  | nil =>
    cases v with
    | str s => exact absurd hv (by simp [isStrVal])
    | null => rfl
    | bool b => rfl
    | int n => rfl
    | float q => rfl
    | list items => rfl
    | map m => rfl
  | cons p pre ih =>
    obtain ⟨k1, v1⟩ := p
    have hstr := hpre (k1, v1) (List.mem_cons_self _ _)
    cases v1 with
    | str s =>
      have ihh := ih (fun q hq => hpre q (List.mem_cons_of_mem _ hq))
      simp only [List.cons_append, promptPairs, List.append_eq, ihh]
    | null => exact absurd hstr (by simp [isStrVal])
    | bool b => exact absurd hstr (by simp [isStrVal])
    | int n => exact absurd hstr (by simp [isStrVal])
    | float q => exact absurd hstr (by simp [isStrVal])
    | list items => exact absurd hstr (by simp [isStrVal])
    | map m => exact absurd hstr (by simp [isStrVal])

/-- C8: loading a multi-prompt document fails with a SchemaError whenever the
top-level `meta` or `prompts` key is absent or not a mapping, or any entry
under `prompts` has a non-string value (the error naming the offending key);
on success `load_prompt_templates` returns exactly the loaded map with the
text sanitizer applied to every template value, so no returned template
contains a marked whitespace code point. -/
theorem load_prompts_schema_sanitize :
    (∀ entries, isYamlMap (rawGet entries "meta") = false →
       load_prompts (Yaml.map entries)
         = .error (.schemaErr "prompts.yaml missing required 'meta' mapping")
       ∧ load_prompt_templates (Yaml.map entries)
         = .error (.schemaErr "prompts.yaml missing required 'meta' mapping"))
    ∧ (∀ entries, isYamlMap (rawGet entries "meta") = true →
        isYamlMap (rawGet entries "prompts") = false →
       load_prompts (Yaml.map entries)
         = .error (.schemaErr "prompts.yaml missing required 'prompts' mapping")
       ∧ load_prompt_templates (Yaml.map entries)
         = .error (.schemaErr "prompts.yaml missing required 'prompts' mapping"))
    ∧ (∀ entries metaE pre k v post,
        rawGet entries "meta" = Yaml.map metaE →
        rawGet entries "prompts" = Yaml.map (pre ++ (k, v) :: post) →
        (∀ p ∈ pre, isStrVal p.2 = true) → isStrVal v = false →
       load_prompts (Yaml.map entries)
         = .error (.schemaErr ("prompts.yaml prompts must be string->string for key=" ++ k))
       ∧ load_prompt_templates (Yaml.map entries)
         = .error (.schemaErr ("prompts.yaml prompts must be string->string for key=" ++ k)))
    ∧ (∀ parsed ps, load_prompts parsed = .ok ps →
        load_prompt_templates parsed
          = .ok (ps.map (fun kv => (kv.1, sanitize_prompt_text kv.2)))
        ∧ ∀ kv ∈ ps.map (fun kv => (kv.1, sanitize_prompt_text kv.2)),
            cleanOfBadWhitespace kv.2.data = true) := by
  refine ⟨?_, ?_, ?_, ?_⟩
  · intro entries hm
    have hp : load_prompts (Yaml.map entries)
        = .error (.schemaErr "prompts.yaml missing required 'meta' mapping") := by
      simp only [load_prompts, load_yaml_root_map]
      cases hv : rawGet entries "meta" <;> simp_all [isYamlMap]
    exact ⟨hp, by simp [load_prompt_templates, hp]⟩
  · intro entries hm hp
    have hlp : load_prompts (Yaml.map entries)
        = .error (.schemaErr "prompts.yaml missing required 'prompts' mapping") := by
      simp only [load_prompts, load_yaml_root_map]
      cases hv : rawGet entries "meta" <;> simp_all [isYamlMap]
      cases hw : rawGet entries "prompts" <;> simp_all [isYamlMap]
    exact ⟨hlp, by simp [load_prompt_templates, hlp]⟩
  · intro entries metaE pre k v post hmeta hprompts hpre hv
    have hlp : load_prompts (Yaml.map entries)
        = .error (.schemaErr ("prompts.yaml prompts must be string->string for key=" ++ k)) := by
      simp only [load_prompts, load_yaml_root_map, hmeta, hprompts,
        promptPairs_first_bad pre k v post hpre hv]
    exact ⟨hlp, by simp [load_prompt_templates, hlp]⟩
  · intro parsed ps h
    refine ⟨by simp [load_prompt_templates, h], ?_⟩
    intro kv hkv
    simp only [List.mem_map] at hkv
    obtain ⟨kv0, _, rfl⟩ := hkv
    exact sanitize_clean kv0.2

/-- C8 witness: a document without `meta` fails; a non-string value under
`prompts` fails naming its key; a successful load sanitizes the no-break
space out of a template value. -/
theorem load_prompts_schema_sanitize_witness :
    load_prompts (Yaml.map [("prompts", Yaml.map [])])
      = .error (.schemaErr "prompts.yaml missing required 'meta' mapping")
    ∧ load_prompts (Yaml.map [("meta", Yaml.map []), ("prompts",
        Yaml.map [("good", Yaml.str "x"), ("bad", Yaml.int 3)])])
      = .error (.schemaErr "prompts.yaml prompts must be string->string for key=bad")
    ∧ load_prompt_templates (Yaml.map [("meta", Yaml.map []), ("prompts",
        Yaml.map [("p", Yaml.str "a\u00A0b")])])
      = .ok [("p", "a b")] := by
  have h := load_prompts_schema_sanitize
  refine ⟨(h.1 [("prompts", Yaml.map [])] rfl).1, ?_, ?_⟩
  · exact (h.2.2.1 [("meta", Yaml.map []), ("prompts",
      Yaml.map [("good", Yaml.str "x"), ("bad", Yaml.int 3)])] [] [("good", Yaml.str "x")]
      "bad" (Yaml.int 3) [] rfl rfl (by simp [isStrVal]) rfl).1
  · exact (h.2.2.2 (Yaml.map [("meta", Yaml.map []), ("prompts",
      Yaml.map [("p", Yaml.str "a\u00A0b")])]) [("p", "a\u00A0b")] (by rfl)).1

end JobPostingDQ
